import Mathlib

/-!
Verification development for the verifiable-credential issuance service.

The embedding models, from the TypeScript source:
  - the JSON value space and the exact semantics of
    `JSON.stringify(value, propertyList)` with an *array* replacer
    (ECMA-262 SerializeJSONProperty/SerializeJSONObject/SerializeJSONArray):
    the property list acts as a key whitelist at every nesting level and
    fixes the output key order at every nesting level;
  - the crypto utility layer (`src/utils/crypto.ts`): hex encoding and
    Node's lenient `Buffer.from(hex)` decoding, signature encoding with the
    single-character prefix, the dispatch on the algorithm tag, and the
    try/catch fail-closed wrappers.  The elliptic-curve arithmetic of the
    `@noble` libraries is abstracted behind `Env` fields (`edSignCore`,
    `edVerifyCore`, `secpSignCompactHex`, `secpVerifyCore`); the documented
    input-validation of those libraries (signature must decode to 64 bytes
    for Ed25519, a compact secp256k1 signature must be 128 hex characters)
    is modelled explicitly since the service's fail-closed behaviour
    depends on it;
  - the credential issuance service (`credential-issuance` service file):
    `issueCredential`, `verifyCredential`, `revokeCredential`,
    `batchIssueCredentials`.

Nondeterminism of the source (wall clock `Date.now()` / `new Date()`,
`Math.random()` for the status token) is passed in explicitly through
`IssueCtx`.  The external stores (issuer registry, KYC database) and the
date formatting/parsing of the JS `Date` class are fields of `Env`.
-/

set_option autoImplicit false

/-! ## JSON values

JavaScript objects are key-ordered finite maps; we model them as ordered
field lists (`JsonObj`).  Mutual inductives are used (instead of a nested
`List`) so that all functions below are structurally recursive and hence
kernel-computable. -/

mutual
inductive Json where
  | null : Json
  | bool (b : Bool) : Json
  | num (n : Int) : Json
  | str (s : String) : Json
  | arr (xs : JsonArr) : Json
  | obj (fs : JsonObj) : Json
inductive JsonArr where
  | nil : JsonArr
  | cons (hd : Json) (tl : JsonArr) : JsonArr
inductive JsonObj where
  | nil : JsonObj
  | cons (key : String) (val : Json) (tl : JsonObj) : JsonObj
end

def JsonArr.ofList : List Json → JsonArr
  | [] => .nil
  | x :: xs => .cons x (JsonArr.ofList xs)

def JsonObj.ofList : List (String × Json) → JsonObj
  | [] => .nil
  | (k, v) :: rest => .cons k v (JsonObj.ofList rest)

/-- The keys of a JSON object in insertion order (`Object.keys`). -/
def okeys : JsonObj → List String
  | .nil => []
  | .cons k _ fs => k :: okeys fs

/-- Property access: the value bound to `key` (first binding wins, as in a
JS object where keys are unique). -/
def olookup : JsonObj → String → Option Json
  | .nil, _ => none
  | .cons k v fs, key => if k = key then some v else olookup fs key

/-! ## String ordering and sorting

`Array.prototype.sort()` with no comparator sorts strings by UTF-16 code
units; for the ASCII keys occurring here this is plain code-point
lexicographic order, modelled by `strLeb`.  `sortStrings` is an insertion
sort with that order. -/

def charListLe : List Char → List Char → Bool
  | [], _ => true
  | _ :: _, [] => false
  | a :: as, b :: bs =>
      if a.val < b.val then true
      else if b.val < a.val then false
      else charListLe as bs

def strLeb (a b : String) : Bool := charListLe a.data b.data

def insertStr (x : String) : List String → List String
  | [] => [x]
  | y :: ys => if strLeb x y then x :: y :: ys else y :: insertStr x ys

def sortStrings : List String → List String
  | [] => []
  | x :: xs => insertStr x (sortStrings xs)

/-! ## JSON.stringify with an array replacer -/

def hexDigitChar (n : Nat) : Char :=
  if n < 10 then Char.ofNat (48 + n) else Char.ofNat (87 + n)

/-- ECMA-262 QuoteJSONString escaping for a single character. -/
def escapeJsonChar (c : Char) : String :=
  if c = '"' then "\\\""
  else if c = '\\' then "\\\\"
  else if c = Char.ofNat 8 then "\\b"
  else if c = Char.ofNat 9 then "\\t"
  else if c = Char.ofNat 10 then "\\n"
  else if c = Char.ofNat 12 then "\\f"
  else if c = Char.ofNat 13 then "\\r"
  else if c.val < 32 then
    "\\u00" ++ String.singleton (hexDigitChar (c.val.toNat / 16)) ++
      String.singleton (hexDigitChar (c.val.toNat % 16))
  else String.singleton c

def quoteJson (s : String) : String :=
  "\"" ++ String.join (s.data.map escapeJsonChar) ++ "\""

def lookupStr : List (String × String) → String → Option String
  | [], _ => none
  | (k, v) :: rest, key => if k = key then some v else lookupStr rest key

/-! `JSON.stringify(j, K)` where `K` is an array replacer (a property
whitelist).  Per ECMA-262, for every object at every nesting level only
the keys in `K` are emitted, in the order of `K`; array elements are always
emitted.  (`serializeFields` pre-serializes every field; the object case
then selects by `K`-lookup, which agrees with the spec's value lookup
because both take the first binding of a key.) -/
mutual
def serializeJson (K : List String) : Json → String
  | .null => "null"
  | .bool b => if b then "true" else "false"
  | .num n => toString n
  | .str s => quoteJson s
  | .arr xs => "[" ++ String.intercalate "," (serializeElems K xs) ++ "]"
  | .obj fs =>
      "\x7b" ++ String.intercalate ","
        (K.filterMap (fun k =>
          (lookupStr (serializeFields K fs) k).map (fun sv => quoteJson k ++ ":" ++ sv)))
        ++ "\x7d"
def serializeElems (K : List String) : JsonArr → List String
  | .nil => []
  | .cons x xs => serializeJson K x :: serializeElems K xs
def serializeFields (K : List String) : JsonObj → List (String × String)
  | .nil => []
  | .cons k v fs => (k, serializeJson K v) :: serializeFields K fs
end

/-- Top-level keys of a JSON value (`Object.keys` of an object; `[]`
otherwise — the service only ever canonicalizes objects). -/
def topKeys : Json → List String
  | .obj fs => okeys fs
  | _ => []

/-- The canonicalization used by both `issueCredential` (step 9) and
`verifyCredential` (step 4):
`JSON.stringify(payload, Object.keys(payload).sort())`. -/
def canonicalizeJson (j : Json) : String :=
  serializeJson (sortStrings (topKeys j)) j

/-! ## Structural equality of JSON payloads

`jequiv a b` holds when `a` and `b` carry the same field values at every
nesting level, allowing a different field-insertion order at any nesting
level: at each object, the two key lists are equal up to order (equal after
sorting) and the value bound to each key of `a` is equivalent to the value
bound to the same key of `b`.  Arrays are ordered and compared pointwise. -/

mutual
def jequiv : Json → Json → Bool
  | .null, .null => true
  | .bool a, .bool b => a == b
  | .num a, .num b => a == b
  | .str a, .str b => a == b
  | .arr xs, .arr ys => aequiv xs ys
  | .obj fs, .obj gs =>
      sortStrings (okeys fs) == sortStrings (okeys gs) && osub fs gs
  | _, _ => false
def aequiv : JsonArr → JsonArr → Bool
  | .nil, .nil => true
  | .cons x xs, .cons y ys => jequiv x y && aequiv xs ys
  | _, _ => false
def osub : JsonObj → JsonObj → Bool
  | .nil, _ => true
  | .cons k v fs, gs =>
      (match olookup gs k with
       | some w => jequiv v w
       | none => false) && osub fs gs
end

/-! ## Bytes and hex

`bufferFromHex` models Node's `Buffer.from(s, 'hex')`: hex digit pairs are
decoded from the start; decoding stops silently at the first invalid pair
or odd leftover character. -/

def isHexChar (c : Char) : Bool :=
  (48 ≤ c.toNat && c.toNat ≤ 57) || (97 ≤ c.toNat && c.toNat ≤ 102) ||
    (65 ≤ c.toNat && c.toNat ≤ 70)

def hexVal (c : Char) : Option Nat :=
  if 48 ≤ c.toNat ∧ c.toNat ≤ 57 then some (c.toNat - 48)
  else if 97 ≤ c.toNat ∧ c.toNat ≤ 102 then some (c.toNat - 87)
  else if 65 ≤ c.toNat ∧ c.toNat ≤ 70 then some (c.toNat - 55)
  else none

def hexPairsToBytes : List Char → List Nat
  | c1 :: c2 :: rest =>
      match hexVal c1, hexVal c2 with
      | some h, some l => (16 * h + l) :: hexPairsToBytes rest
      | _, _ => []
  | _ => []

def bufferFromHex (s : String) : List Nat := hexPairsToBytes s.data

def byteToHex (b : Nat) : String :=
  String.singleton (hexDigitChar (b / 16 % 16)) ++ String.singleton (hexDigitChar (b % 16))

/-- Node's `Buffer.prototype.toString('hex')` (lower-case). -/
def bytesToHex (bs : List Nat) : String := String.join (bs.map byteToHex)

/-! ## Data model (`src/types/credentials.ts`)

Enumerated string unions (`SignatureAlgorithm`, KYC levels, check
statuses) are modelled as `String`, matching the runtime representation on
which the source dispatches and compares. -/

structure DIDDocument where
  id : String
  name : String
  jurisdiction : List String
  regulators : List String
  tier : Int
  deriving DecidableEq

structure HashedPII where
  name : String
  dateOfBirth : String
  citizenship : String
  address : String
  deriving DecidableEq

structure KYCClaims where
  kycLevel : String
  amlScreening : String
  sanctionsCheck : String
  pepScreening : String
  sourceOfFunds : String
  accreditedInvestor : Bool
  entityType : String
  deriving DecidableEq

structure AmountVerification where
  value : Int
  currency : String
  deriving DecidableEq

structure CredentialSubject where
  id : String
  hashedPII : HashedPII
  claims : KYCClaims
  amountVerifiedFor : AmountVerification
  tier : Int
  jurisdictions : List String
  deriving DecidableEq

structure CredentialStatus where
  id : String
  type : String
  registryContract : String
  tokenId : String
  deriving DecidableEq

structure Proof where
  type : String
  created : String
  verificationMethod : String
  proofPurpose : String
  proofValue : String
  deriving DecidableEq

/-- The credential minus its `proof` field, i.e. exactly the
`unsignedCredential` object built in step 8 of `issueCredential`, and
exactly the `credentialWithoutProof` rest-object destructured in
`verifyCredential`. -/
structure UnsignedCredential where
  context : List String
  id : String
  type : List String
  issuer : DIDDocument
  issuanceDate : String
  expirationDate : String
  credentialSubject : CredentialSubject
  decommissionedAt : Option String
  credentialStatus : CredentialStatus
  deriving DecidableEq

structure VerifiableCredential extends UnsignedCredential where
  proof : Proof
  deriving DecidableEq

structure IssueCredentialRequest where
  customerKycId : String
  issuerDid : String
  kycLevel : String
  accreditedInvestor : Bool
  jurisdiction : List String
  expiryDays : Option Int
  signatureAlgorithm : Option String
  deriving DecidableEq

structure CustomerKYCData where
  kycId : String
  name : String
  dateOfBirth : String
  citizenship : String
  address : String
  kycLevel : String
  amlScreening : String
  sanctionsCheck : String
  pepScreening : String
  sourceOfFunds : String
  accreditedInvestor : Bool
  entityType : String
  verifiedAmount : Int
  currency : String
  tier : Int
  jurisdictions : List String
  userDid : Option String
  deriving DecidableEq

structure BankIssuer where
  did : String
  name : String
  jurisdiction : List String
  regulators : List String
  tier : Int
  privateKey : String
  publicKey : String
  signatureAlgorithm : String
  deriving DecidableEq

structure VerificationResult where
  valid : Bool
  errors : List String
  deriving DecidableEq

/-! ## Environment

External collaborators and abstracted primitives.  The two registries
model `getIssuerByDid` / `getCustomerKYC`.  `sha256Hash` is the hex SHA-256
digest.  `edSignCore sig msgHash sk`, `edVerifyCore sig msgHash pk` are the
`@noble/ed25519` byte-level sign/verify (verify's `Except` carries the
exceptions the library can throw); `secpSignCompactHex msgHashHex sk`
produces the compact-hex secp256k1 signature and `secpVerifyCore
compactHex msgHashHex pk` verifies one that already passed the library's
structural validation.  `toISOString` / `parseDateMs` model
`Date.prototype.toISOString` and `new Date(string).getTime()`. -/

structure Env where
  getIssuerByDid : String → Option BankIssuer
  getCustomerKYC : String → Option CustomerKYCData
  sha256Hash : String → String
  edSignCore : List Nat → List Nat → List Nat
  edVerifyCore : List Nat → List Nat → List Nat → Except String Bool
  secpSignCompactHex : String → List Nat → String
  secpVerifyCore : String → String → List Nat → Except String Bool
  toISOString : Int → String
  parseDateMs : String → Int

/-- Clock and randomness consumed by one `issueCredential` call:
`Date.now()` in milliseconds and the `Math.floor(Math.random() * 100000)`
draw for the status token. -/
structure IssueCtx where
  nowMs : Int
  tokenRand : Nat

/-- JS `v || dflt` for an optional number: `0` (and absence) is falsy. -/
def jsOrIntDefault (v : Option Int) (dflt : Int) : Int :=
  match v with
  | some d => if d = 0 then dflt else d
  | none => dflt

/-- JS `v || dflt` for an optional string: `""` (and absence) is falsy. -/
def jsOrStrDefault (v : Option String) (dflt : String) : String :=
  match v with
  | some s => if s = "" then dflt else s
  | none => dflt

/-! ## Crypto utilities (`src/utils/crypto.ts`) -/

/-- `hashPII(value, salt?)`: SHA-256 of the (optionally salted) value with
a fixed `0x` prefix. -/
def hashPII (env : Env) (value : String) (salt : Option String := none) : String :=
  let dataToHash := match salt with
    | some s => value ++ ":" ++ s
    | none => value
  "0x" ++ env.sha256Hash dataToHash

/-- `signWithEd25519`: sign the SHA-256 of the data, return `'z'` + hex. -/
def signWithEd25519 (env : Env) (data privateKeyHex : String) : String :=
  let privateKey := bufferFromHex privateKeyHex
  let messageHash := bufferFromHex (env.sha256Hash data)
  "z" ++ bytesToHex (env.edSignCore messageHash privateKey)

/-- `signWithSecp256k1`: sign the SHA-256 hex digest, return `'z'` +
compact hex. -/
def signWithSecp256k1 (env : Env) (data privateKeyHex : String) : String :=
  let privateKey := bufferFromHex privateKeyHex
  let messageHash := env.sha256Hash data
  "z" ++ env.secpSignCompactHex messageHash privateKey

/-- `signCredential`: dispatch on the algorithm tag; unrecognized tags
throw `Unsupported signature algorithm`. -/
def signCredential (env : Env) (credentialData privateKey algorithm : String) :
    Except String String :=
  if algorithm = "Ed25519" then
    .ok (signWithEd25519 env credentialData privateKey)
  else if algorithm = "secp256k1" then
    .ok (signWithSecp256k1 env credentialData privateKey)
  else
    .error ("Unsupported signature algorithm: " ++ algorithm)

/-- Input validation performed by `@noble/ed25519`'s `verify` before any
curve arithmetic: the signature must be exactly 64 bytes and the public
key exactly 32 bytes, else it throws. -/
def nobleEdVerify (env : Env) (sig msgHash pub : List Nat) : Except String Bool :=
  if sig.length ≠ 64 then .error "invalid signature length"
  else if pub.length ≠ 32 then .error "invalid public key length"
  else env.edVerifyCore sig msgHash pub

/-- `verifyEd25519`: strip the prefix, hex-decode leniently (Node
`Buffer.from(.., 'hex')`), verify; the surrounding try/catch turns every
thrown error into `false`. -/
def verifyEd25519 (env : Env) (data sigWithTag publicKeyHex : String) : Bool :=
  let signature := bufferFromHex (sigWithTag.drop 1)
  let publicKey := bufferFromHex publicKeyHex
  let messageHash := bufferFromHex (env.sha256Hash data)
  match nobleEdVerify env signature messageHash publicKey with
  | .ok b => b
  | .error _ => false

/-- Structural validation performed by `@noble/secp256k1`'s
`Signature.fromCompact` on a hex string: exactly 128 hex characters (its
strict `hexToBytes` rejects any non-hex character or wrong length by
throwing). -/
def nobleSecpCompactOk (hex : String) : Bool :=
  hex.length == 128 && hex.data.all isHexChar

/-- `verifySecp256k1`: strip the prefix, parse the compact signature,
verify; the surrounding try/catch turns every thrown error into
`false`. -/
def verifySecp256k1 (env : Env) (data sigWithTag publicKeyHex : String) : Bool :=
  let signatureHex := sigWithTag.drop 1
  if nobleSecpCompactOk signatureHex then
    match env.secpVerifyCore signatureHex (env.sha256Hash data) (bufferFromHex publicKeyHex) with
    | .ok b => b
    | .error _ => false
  else false

/-- `verifySignature`: dispatch on the algorithm tag; unrecognized tags
throw `Unsupported signature algorithm`.  For recognized tags the result
is always a plain boolean (the per-scheme verifiers never throw). -/
def verifySignature (env : Env) (credentialData signature publicKey algorithm : String) :
    Except String Bool :=
  if algorithm = "Ed25519" then
    .ok (verifyEd25519 env credentialData signature publicKey)
  else if algorithm = "secp256k1" then
    .ok (verifySecp256k1 env credentialData signature publicKey)
  else
    .error ("Unsupported signature algorithm: " ++ algorithm)

/-- `generateCredentialId`: hash of issuer DID, subject id and
`Date.now()`, truncated to 16 hex characters under a namespace prefix. -/
def generateCredentialId (env : Env) (issuerDid subjectId : String) (nowMs : Int) : String :=
  let combined := issuerDid ++ ":" ++ subjectId ++ ":" ++ toString nowMs
  "did:did3:credential:" ++ (env.sha256Hash combined).take 16

/-- `String.prototype.split(':')` (structural implementation; the
library's `splitOn` is not used because it is not kernel-reducible). -/
def splitColonChars : List Char → List (List Char)
  | [] => [[]]
  | c :: cs =>
      match splitColonChars cs, c == ':' with
      | r, true => [] :: r
      | [], false => [[c]]
      | g :: gs, false => (c :: g) :: gs

def splitColon (s : String) : List String :=
  (splitColonChars s.data).map (fun l => { data := l })

/-- `generateStatusUrl`: status-registry URL from the last `:`-segment of
the credential id (`split(':').pop() || ''`). -/
def generateStatusUrl (credentialId : String) : String :=
  let hash := ((splitColon credentialId).getLast?).getD ""
  "https://did3.org/credentials/status/" ++ hash

/-! ## The credential as a JSON value

`unsignedCredentialJson` reproduces the object literal of step 8 of
`issueCredential` with its exact field-insertion order at every level. -/

def strListJson (l : List String) : Json :=
  .arr (JsonArr.ofList (l.map Json.str))

def unsignedCredentialJson (u : UnsignedCredential) : Json :=
  .obj (JsonObj.ofList [
    ("@context", strListJson u.context),
    ("id", .str u.id),
    ("type", strListJson u.type),
    ("issuer", .obj (JsonObj.ofList [
      ("id", .str u.issuer.id),
      ("name", .str u.issuer.name),
      ("jurisdiction", strListJson u.issuer.jurisdiction),
      ("regulators", strListJson u.issuer.regulators),
      ("tier", .num u.issuer.tier)])),
    ("issuanceDate", .str u.issuanceDate),
    ("expirationDate", .str u.expirationDate),
    ("credentialSubject", .obj (JsonObj.ofList [
      ("id", .str u.credentialSubject.id),
      ("hashedPII", .obj (JsonObj.ofList [
        ("name", .str u.credentialSubject.hashedPII.name),
        ("dateOfBirth", .str u.credentialSubject.hashedPII.dateOfBirth),
        ("citizenship", .str u.credentialSubject.hashedPII.citizenship),
        ("address", .str u.credentialSubject.hashedPII.address)])),
      ("claims", .obj (JsonObj.ofList [
        ("kycLevel", .str u.credentialSubject.claims.kycLevel),
        ("amlScreening", .str u.credentialSubject.claims.amlScreening),
        ("sanctionsCheck", .str u.credentialSubject.claims.sanctionsCheck),
        ("pepScreening", .str u.credentialSubject.claims.pepScreening),
        ("sourceOfFunds", .str u.credentialSubject.claims.sourceOfFunds),
        ("accreditedInvestor", .bool u.credentialSubject.claims.accreditedInvestor),
        ("entityType", .str u.credentialSubject.claims.entityType)])),
      ("amountVerifiedFor", .obj (JsonObj.ofList [
        ("value", .num u.credentialSubject.amountVerifiedFor.value),
        ("currency", .str u.credentialSubject.amountVerifiedFor.currency)])),
      ("tier", .num u.credentialSubject.tier),
      ("jurisdictions", strListJson u.credentialSubject.jurisdictions)])),
    ("decommissionedAt", match u.decommissionedAt with
      | none => .null
      | some s => .str s),
    ("credentialStatus", .obj (JsonObj.ofList [
      ("id", .str u.credentialStatus.id),
      ("type", .str u.credentialStatus.type),
      ("registryContract", .str u.credentialStatus.registryContract),
      ("tokenId", .str u.credentialStatus.tokenId)]))])

/-- `JSON.stringify(unsignedCredential, Object.keys(unsignedCredential).sort())` —
the canonical bytes used both for signing (issuance step 9) and for
verification (step 4, after stripping `proof`). -/
def canonicalUnsigned (u : UnsignedCredential) : String :=
  canonicalizeJson (unsignedCredentialJson u)

/-! ## Credential issuance service -/

/-- `issueCredential` (direct translation; `throw` becomes `.error`).
JS falsiness of `||` defaults is preserved: `expiryDays || 365` treats `0`
as absent, `userDid || fallback` and `signatureAlgorithm || default` treat
the empty string as absent. -/
def issueCredential (env : Env) (ctx : IssueCtx) (request : IssueCredentialRequest) :
    Except String VerifiableCredential :=
  match env.getIssuerByDid request.issuerDid with
  | none => .error ("Invalid issuer DID: " ++ request.issuerDid)
  | some issuer =>
  match env.getCustomerKYC request.customerKycId with
  | none => .error ("Customer not found: " ++ request.customerKycId)
  | some kycData =>
  if kycData.amlScreening ≠ "passed" ∨ kycData.sanctionsCheck ≠ "passed" ∨
      kycData.pepScreening ≠ "passed" then
    .error "Customer has not passed all required KYC checks"
  else if request.kycLevel ≠ kycData.kycLevel then
    .error ("KYC level mismatch: requested " ++ request.kycLevel ++
      ", customer has " ++ kycData.kycLevel)
  else if request.accreditedInvestor ≠ kycData.accreditedInvestor then
    .error "Accredited investor status mismatch"
  else
    let subjectDid := jsOrStrDefault kycData.userDid ("did:did3:user:" ++ request.customerKycId)
    let credentialId := generateCredentialId env issuer.did subjectDid ctx.nowMs
    let expiryDays : Int := jsOrIntDefault request.expiryDays 365
    let hashedPII : HashedPII := {
      name := hashPII env kycData.name
      dateOfBirth := hashPII env kycData.dateOfBirth
      citizenship := hashPII env kycData.citizenship
      address := hashPII env kycData.address }
    let credentialSubject : CredentialSubject := {
      id := subjectDid
      hashedPII := hashedPII
      claims := {
        kycLevel := kycData.kycLevel
        amlScreening := kycData.amlScreening
        sanctionsCheck := kycData.sanctionsCheck
        pepScreening := kycData.pepScreening
        sourceOfFunds := kycData.sourceOfFunds
        accreditedInvestor := kycData.accreditedInvestor
        entityType := kycData.entityType }
      amountVerifiedFor := { value := kycData.verifiedAmount, currency := kycData.currency }
      tier := kycData.tier
      jurisdictions := request.jurisdiction }
    let unsignedCredential : UnsignedCredential := {
      context := ["https://www.w3.org/2018/credentials/v1",
                  "https://did3.org/contexts/credentials/v1"]
      id := credentialId
      type := ["VerifiableCredential", "KYCCredential"]
      issuer := {
        id := issuer.did
        name := issuer.name
        jurisdiction := issuer.jurisdiction
        regulators := issuer.regulators
        tier := issuer.tier }
      issuanceDate := env.toISOString ctx.nowMs
      expirationDate := env.toISOString (ctx.nowMs + expiryDays * 86400000)
      credentialSubject := credentialSubject
      decommissionedAt := none
      credentialStatus := {
        id := generateStatusUrl credentialId
        type := "DID3RevocationRegistry"
        registryContract := "0x" ++ String.join (List.replicate 40 "0")
        tokenId := toString (ctx.tokenRand % 100000) } }
    let canonicalData := canonicalUnsigned unsignedCredential
    let signatureAlgorithm := jsOrStrDefault request.signatureAlgorithm issuer.signatureAlgorithm
    match signCredential env canonicalData issuer.privateKey signatureAlgorithm with
    | .error e => .error e
    | .ok proofValue =>
      let proofType := if signatureAlgorithm = "Ed25519"
        then "Ed25519Signature2020"
        else "EcdsaSecp256k1Signature2019"
      .ok { unsignedCredential with
            proof := {
              type := proofType
              created := env.toISOString ctx.nowMs
              verificationMethod := issuer.did ++ "#key-1"
              proofPurpose := "assertionMethod"
              proofValue := proofValue } }

/-- `verifyCredential` (direct translation).  Errors accumulate; the
issuer check returns early; a thrown `Unsupported signature algorithm`
from `verifySignature` is caught and reported as a `Verification error`
entry. -/
def verifyCredential (env : Env) (nowMs : Int) (credential : VerifiableCredential) :
    VerificationResult :=
  let errors1 :=
    if nowMs > env.parseDateMs credential.expirationDate
      then ["Credential has expired"] else []
  let errors2 := errors1 ++
    (if credential.decommissionedAt ≠ none
      then ["Credential has been decommissioned"] else [])
  match env.getIssuerByDid credential.issuer.id with
  | none => { valid := false, errors := errors2 ++ ["Unknown issuer"] }
  | some issuer =>
    let canonicalData := canonicalUnsigned credential.toUnsignedCredential
    match verifySignature env canonicalData credential.proof.proofValue
        issuer.publicKey issuer.signatureAlgorithm with
    | .error msg =>
        { valid := false, errors := errors2 ++ ["Verification error: " ++ msg] }
    | .ok signatureValid =>
        let errors3 := errors2 ++ (if signatureValid then [] else ["Invalid signature"])
        { valid := errors3.isEmpty && signatureValid, errors := errors3 }

/-- `revokeCredential`: pure copy with `decommissionedAt` set to the
current time's ISO string. -/
def revokeCredential (env : Env) (nowMs : Int) (credential : VerifiableCredential) :
    VerifiableCredential :=
  { credential with decommissionedAt := some (env.toISOString nowMs) }

structure BatchResult where
  successful : List VerifiableCredential
  failed : List (IssueCredentialRequest × String)
  deriving DecidableEq

/-- `batchIssueCredentials`: sequential loop; each iteration draws a fresh
clock/randomness context (`ctxs i` for the i-th request), successes and
failures are pushed in input order, a failure only adds to `failed`. -/
def batchIssueGo (env : Env) (ctxs : Nat → IssueCtx) (i : Nat) :
    List IssueCredentialRequest → BatchResult
  | [] => { successful := [], failed := [] }
  | request :: rest =>
      let r := batchIssueGo env ctxs (i + 1) rest
      match issueCredential env (ctxs i) request with
      | .ok credential => { r with successful := credential :: r.successful }
      | .error e => { r with failed := (request, e) :: r.failed }

def batchIssueCredentials (env : Env) (ctxs : Nat → IssueCtx)
    (requests : List IssueCredentialRequest) : BatchResult :=
  batchIssueGo env ctxs 0 requests

/-! ## Sorted key list of the credential

The nine top-level keys of the unsigned credential in sorted order: this
is the property whitelist `Object.keys(unsignedCredential).sort()` that
both signing and verification pass to `JSON.stringify`. -/

def canonKeys : List String :=
  ["@context", "credentialStatus", "credentialSubject", "decommissionedAt",
   "expirationDate", "id", "issuanceDate", "issuer", "type"]

/-! ## A concrete environment

A small, fully computable environment used to instantiate the theorems
below on concrete inputs.  The registries hold one issuer (whose key pair
is consistent: the mock schemes accept exactly the signatures produced
with the matching private key) and three customers.  The two signature
schemes are kept disjoint by a distinct leading tag byte, so a signature
produced by one scheme never verifies under the other — mirroring the
actual cross-scheme behaviour of the two curves.  The mock SHA-256 returns
an 8-hex-character digest of the input's length, so distinct-length inputs
have distinct digests. -/

def mockSigPad : List Nat := List.replicate 64 0

def mockHash (s : String) : String :=
  bytesToHex [s.length / 16777216 % 256, s.length / 65536 % 256,
    s.length / 256 % 256, s.length % 256]

def mockEdSign (m sk : List Nat) : List Nat := ((1 :: m) ++ sk ++ mockSigPad).take 64

def mockEdVerifyCore (s m pk : List Nat) : Except String Bool :=
  .ok (s == ((1 :: m) ++ pk ++ mockSigPad).take 64)

def mockSecpSign (hHex : String) (sk : List Nat) : String :=
  bytesToHex (((2 :: bufferFromHex hHex) ++ sk ++ mockSigPad).take 64)

def mockSecpVerifyCore (body hHex : String) (pk : List Nat) : Except String Bool :=
  .ok (body == bytesToHex (((2 :: bufferFromHex hHex) ++ pk ++ mockSigPad).take 64))

def decNatAcc : List Char → Nat → Option Nat
  | [], acc => some acc
  | c :: cs, acc =>
      if 48 ≤ c.toNat ∧ c.toNat ≤ 57 then decNatAcc cs (acc * 10 + (c.toNat - 48))
      else none

def parseDecInt (s : String) : Int :=
  match s.data with
  | '-' :: cs => match decNatAcc cs 0 with | some n => -(n : Int) | none => 0
  | cs => match decNatAcc cs 0 with | some n => (n : Int) | none => 0

def mockKeyHex : String := String.join (List.replicate 32 "aa")

def mockIssuer : BankIssuer := {
  did := "did:did3:bank:mock", name := "Mock Bank", jurisdiction := ["US"],
  regulators := ["SEC"], tier := 5, privateKey := mockKeyHex,
  publicKey := mockKeyHex, signatureAlgorithm := "Ed25519" }

def mockCustomer : CustomerKYCData := {
  kycId := "KYC-001", name := "Alice Johnson", dateOfBirth := "1985-03-15",
  citizenship := "US", address := "123 Wall Street", kycLevel := "enhanced",
  amlScreening := "passed", sanctionsCheck := "passed", pepScreening := "passed",
  sourceOfFunds := "verified", accreditedInvestor := true, entityType := "individual",
  verifiedAmount := 5000000, currency := "USD", tier := 2, jurisdictions := ["US"],
  userDid := some "did:did3:user:alice" }

/-- A customer identical to `mockCustomer` except that AML screening
failed. -/
def mockCustomerAmlFailed : CustomerKYCData :=
  { mockCustomer with kycId := "KYC-AML", amlScreening := "failed" }

/-- A customer identical to `mockCustomer` except that the sanctions
check failed. -/
def mockCustomerSanctionsFailed : CustomerKYCData :=
  { mockCustomer with kycId := "KYC-SANC", sanctionsCheck := "failed" }

def mockEnv : Env := {
  getIssuerByDid := fun d => if d = "did:did3:bank:mock" then some mockIssuer else none
  getCustomerKYC := fun c =>
    if c = "KYC-001" then some mockCustomer
    else if c = "KYC-AML" then some mockCustomerAmlFailed
    else if c = "KYC-SANC" then some mockCustomerSanctionsFailed
    else none
  sha256Hash := mockHash
  edSignCore := mockEdSign
  edVerifyCore := mockEdVerifyCore
  secpSignCompactHex := mockSecpSign
  secpVerifyCore := mockSecpVerifyCore
  toISOString := fun t => "date-" ++ toString t
  parseDateMs := fun s => parseDecInt (s.drop 5) }

def mockCtx : IssueCtx := { nowMs := 1700000000000, tokenRand := 42 }

def mockRequest : IssueCredentialRequest := {
  customerKycId := "KYC-001", issuerDid := "did:did3:bank:mock",
  kycLevel := "enhanced", accreditedInvestor := true, jurisdiction := ["US"],
  expiryDays := some 365, signatureAlgorithm := none }

/-- A concrete credential whose issuer is not in the mock registry and
whose expiration (`date-1000`, i.e. t = 1000) lies in the past at
t = 2000. -/
def orphanCredential : VerifiableCredential := {
  context := ["https://www.w3.org/2018/credentials/v1"]
  id := "did:did3:credential:feedc0de00000000"
  type := ["VerifiableCredential", "KYCCredential"]
  issuer := { id := "did:did3:bank:ghost", name := "Ghost Bank",
              jurisdiction := ["US"], regulators := [], tier := 1 }
  issuanceDate := "date-0"
  expirationDate := "date-1000"
  credentialSubject := {
    id := "did:did3:user:bob"
    hashedPII := { name := "0x00", dateOfBirth := "0x00", citizenship := "0x00",
                   address := "0x00" }
    claims := { kycLevel := "basic", amlScreening := "passed",
                sanctionsCheck := "passed", pepScreening := "passed",
                sourceOfFunds := "verified", accreditedInvestor := false,
                entityType := "individual" }
    amountVerifiedFor := { value := 1000, currency := "USD" }
    tier := 3
    jurisdictions := ["US"] }
  decommissionedAt := none
  credentialStatus := { id := "https://did3.org/credentials/status/feedc0de00000000",
                        type := "DID3RevocationRegistry",
                        registryContract := "0x0", tokenId := "1" }
  proof := { type := "Ed25519Signature2020", created := "date-0",
             verificationMethod := "did:did3:bank:ghost#key-1",
             proofPurpose := "assertionMethod", proofValue := "zdeadbeef" } }

instance {e a : Type} [DecidableEq e] [DecidableEq a] : DecidableEq (Except e a) :=
  fun x y =>
  match x, y with
  | .ok u, .ok v =>
      match decEq u v with
      | isTrue h => isTrue (by rw [h])
      | isFalse h => isFalse (fun he => h (Except.ok.inj he))
  | .error u, .error v =>
      match decEq u v with
      | isTrue h => isTrue (by rw [h])
      | isFalse h => isFalse (fun he => h (Except.error.inj he))
  | .ok _, .error _ => isFalse (fun he => Except.noConfusion he)
  | .error _, .ok _ => isFalse (fun he => Except.noConfusion he)

/-- The credential with `credentialSubject.tier` replaced (models
post-issuance tampering with the tier field). -/
def withSubjectTier (c : VerifiableCredential) (t : Int) : VerifiableCredential :=
  { c with credentialSubject := { c.credentialSubject with tier := t } }

/-- The credential with `credentialSubject.claims.sanctionsCheck`
replaced (models post-issuance tampering with a claims field). -/
def withClaimsSanctions (c : VerifiableCredential) (v : String) : VerifiableCredential :=
  { c with credentialSubject :=
      { c.credentialSubject with claims :=
          { c.credentialSubject.claims with sanctionsCheck := v } } }

/-- The credential with `credentialSubject.amountVerifiedFor.value`
replaced (models post-issuance tampering with the verified amount). -/
def withAmountValue (c : VerifiableCredential) (v : Int) : VerifiableCredential :=
  { c with credentialSubject :=
      { c.credentialSubject with amountVerifiedFor :=
          { c.credentialSubject.amountVerifiedFor with value := v } } }

/-- `mockRequest` with `expiryDays = 0` (claim C10's falsy default case). -/
def mockRequestZeroExpiry : IssueCredentialRequest :=
  { mockRequest with expiryDays := some 0 }

/-- `mockRequest` for the customer whose AML screening failed. -/
def mockRequestAml : IssueCredentialRequest :=
  { mockRequest with customerKycId := "KYC-AML" }

/-- `mockRequest` for the customer whose sanctions check failed. -/
def mockRequestSanctions : IssueCredentialRequest :=
  { mockRequest with customerKycId := "KYC-SANC" }

/-- `mockRequest` with a signature-algorithm override that differs from
the issuer's declared algorithm (claim C2's counterexample). -/
def mockRequestOverride : IssueCredentialRequest :=
  { mockRequest with signatureAlgorithm := some "secp256k1" }

/-- Two structurally-equal JSON payloads built with different
field-insertion order at both nesting levels (claim C3's witness). -/
def exampleJsonA : Json :=
  .obj (.ofList [("b", .num 1),
    ("a", .obj (.ofList [("y", .str "v"), ("x", .bool true)]))])

def exampleJsonB : Json :=
  .obj (.ofList [("a", .obj (.ofList [("x", .bool true), ("y", .str "v")])),
    ("b", .num 1)])

/-- The credential issued for the valid mock request (used as a concrete
verifying credential by the revocation witness). -/
def mockIssuedCredential : VerifiableCredential :=
  match issueCredential mockEnv mockCtx mockRequest with
  | .ok c => c
  | .error _ => orphanCredential

/-! # Lemmas -/

theorem hexVal_lt {c : Char} {n : Nat} (h : hexVal c = some n) : n < 16 := by
  unfold hexVal at h
  split at h
  · injection h with h2; omega
  · split at h
    · injection h with h2; omega
    · split at h
      · injection h with h2; omega
      · exact Option.noConfusion h

theorem hexVal_hexDigitChar : ∀ n, n < 16 → hexVal (hexDigitChar n) = some n := by decide

theorem hexPairsToBytes_lt : ∀ (cs : List Char), ∀ b ∈ hexPairsToBytes cs, b < 256
  | [] => by simp [hexPairsToBytes]
  | [c] => by simp [hexPairsToBytes]
  | c1 :: c2 :: rest => by
      intro b hb
      unfold hexPairsToBytes at hb
      cases h1 : hexVal c1 with
      | none => rw [h1] at hb; simp at hb
      | some hva =>
          cases h2 : hexVal c2 with
          | none => rw [h1, h2] at hb; simp at hb
          | some hvb =>
              rw [h1, h2] at hb
              simp only [List.mem_cons] at hb
              rcases hb with hb | hb
              · have ha := hexVal_lt h1
                have hc := hexVal_lt h2
                omega
              · exact hexPairsToBytes_lt rest b hb

theorem bufferFromHex_lt (s : String) : ∀ b ∈ bufferFromHex s, b < 256 :=
  hexPairsToBytes_lt s.data

theorem data_byteToHex (b : Nat) :
    (byteToHex b).data = [hexDigitChar (b / 16 % 16), hexDigitChar (b % 16)] := rfl

theorem bufferFromHex_bytesToHex :
    ∀ (bs : List Nat), (∀ b ∈ bs, b < 256) → bufferFromHex (bytesToHex bs) = bs := by
  intro bs
  induction bs with
  | nil => intro _; rfl
  | cons b rest ih =>
      intro h
      have hb : b < 256 := h b (by simp)
      have hdata : (bytesToHex (b :: rest)).data =
          [hexDigitChar (b / 16 % 16), hexDigitChar (b % 16)] ++ (bytesToHex rest).data := by
        simp [bytesToHex, data_byteToHex]
      have e1 : hexVal (hexDigitChar (b / 16 % 16)) = some (b / 16 % 16) :=
        hexVal_hexDigitChar _ (by omega)
      have e2 : hexVal (hexDigitChar (b % 16)) = some (b % 16) :=
        hexVal_hexDigitChar _ (by omega)
      have hrest : hexPairsToBytes (bytesToHex rest).data = rest :=
        ih (fun x hx => h x (by simp [hx]))
      have hbeq : 16 * (b / 16 % 16) + b % 16 = b := by omega
      unfold bufferFromHex
      rw [hdata]
      simp only [List.cons_append, List.nil_append, hexPairsToBytes, e1, e2, hbeq]
      show b :: hexPairsToBytes (bytesToHex rest).data = b :: rest
      rw [hrest]

theorem drop_one_z_append (t : String) : ("z" ++ t).drop 1 = t := by
  rw [String.drop_eq]
  simp

set_option maxRecDepth 20000 in
set_option maxHeartbeats 2000000 in
/-- Explicit form of the canonical bytes: the array replacer
`Object.keys(unsignedCredential).sort()` whitelists only the nine
top-level keys at every nesting level, so of the nested objects only
`issuer.id`, `credentialSubject.id`, `credentialStatus.id` and
`credentialStatus.type` survive; `hashedPII`, `claims`,
`amountVerifiedFor`, `tier`, `jurisdictions`, the issuer details and the
status registry fields are all dropped from the signed bytes. -/
theorem canonicalUnsigned_eq (u : UnsignedCredential) : canonicalUnsigned u =
    "\x7b\"@context\":" ++ serializeJson canonKeys (strListJson u.context) ++
    ",\"credentialStatus\":\x7b\"id\":" ++ quoteJson u.credentialStatus.id ++
    ",\"type\":" ++ quoteJson u.credentialStatus.type ++
    "\x7d,\"credentialSubject\":\x7b\"id\":" ++ quoteJson u.credentialSubject.id ++
    "\x7d,\"decommissionedAt\":" ++
    (match u.decommissionedAt with
      | none => "null"
      | some s => quoteJson s) ++
    ",\"expirationDate\":" ++ quoteJson u.expirationDate ++
    ",\"id\":" ++ quoteJson u.id ++
    ",\"issuanceDate\":" ++ quoteJson u.issuanceDate ++
    ",\"issuer\":\x7b\"id\":" ++ quoteJson u.issuer.id ++
    "\x7d,\"type\":" ++ serializeJson canonKeys (strListJson u.type) ++ "\x7d" := by
  cases u with
  | mk context id type issuer issuanceDate expirationDate credentialSubject
      decommissionedAt credentialStatus =>
    cases decommissionedAt with
    | none =>
        apply String.ext
        simp +decide [canonKeys, escapeJsonChar, String.singleton, canonicalUnsigned,
          canonicalizeJson, unsignedCredentialJson, topKeys, serializeJson,
          serializeFields, serializeElems, lookupStr, okeys, JsonObj.ofList,
          strListJson, JsonArr.ofList, String.intercalate, String.intercalate.go,
          sortStrings, insertStr, strLeb, charListLe, quoteJson]
    | some s =>
        apply String.ext
        simp +decide [canonKeys, escapeJsonChar, String.singleton, canonicalUnsigned,
          canonicalizeJson, unsignedCredentialJson, topKeys, serializeJson,
          serializeFields, serializeElems, lookupStr, okeys, JsonObj.ofList,
          strListJson, JsonArr.ofList, String.intercalate, String.intercalate.go,
          sortStrings, insertStr, strLeb, charListLe, quoteJson]

/-- C1.  The claim asserts that flipping any single bit in the
credentialSubject's subject id, claims, amountVerifiedFor or tier makes
verification fail with `InvalidSignature`.  In fact the array-replacer
canonicalization drops `claims`, `amountVerifiedFor` and `tier` from the
signed bytes entirely, so replacing any of them (a fortiori flipping one
of their bits) leaves the canonical bytes — and with them the entire
verification result — unchanged: a tampered credential verifies exactly
as the original does.  This theorem exhibits the code bug. -/
theorem claim_C1_tampered_fields_not_signed (env : Env) (nowMs : Int)
    (c : VerifiableCredential) (t v : Int) (s : String) :
    canonicalUnsigned (withSubjectTier c t).toUnsignedCredential
        = canonicalUnsigned c.toUnsignedCredential ∧
    canonicalUnsigned (withClaimsSanctions c s).toUnsignedCredential
        = canonicalUnsigned c.toUnsignedCredential ∧
    canonicalUnsigned (withAmountValue c v).toUnsignedCredential
        = canonicalUnsigned c.toUnsignedCredential ∧
    verifyCredential env nowMs (withSubjectTier c t) = verifyCredential env nowMs c ∧
    verifyCredential env nowMs (withClaimsSanctions c s) = verifyCredential env nowMs c ∧
    verifyCredential env nowMs (withAmountValue c v) = verifyCredential env nowMs c := by
  obtain ⟨⟨context, id, type, issuer, issuanceDate, expirationDate,
    ⟨sid, hpii, cl, av, tr, js⟩, decommissionedAt, credentialStatus⟩, prf⟩ := c
  have h1 : canonicalUnsigned (withSubjectTier
      ⟨⟨context, id, type, issuer, issuanceDate, expirationDate,
        ⟨sid, hpii, cl, av, tr, js⟩, decommissionedAt, credentialStatus⟩, prf⟩ t).toUnsignedCredential
      = canonicalUnsigned ⟨context, id, type, issuer, issuanceDate, expirationDate,
        ⟨sid, hpii, cl, av, tr, js⟩, decommissionedAt, credentialStatus⟩ := by
    rw [canonicalUnsigned_eq, canonicalUnsigned_eq]
    rfl
  have h2 : canonicalUnsigned (withClaimsSanctions
      ⟨⟨context, id, type, issuer, issuanceDate, expirationDate,
        ⟨sid, hpii, cl, av, tr, js⟩, decommissionedAt, credentialStatus⟩, prf⟩ s).toUnsignedCredential
      = canonicalUnsigned ⟨context, id, type, issuer, issuanceDate, expirationDate,
        ⟨sid, hpii, cl, av, tr, js⟩, decommissionedAt, credentialStatus⟩ := by
    rw [canonicalUnsigned_eq, canonicalUnsigned_eq]
    rfl
  have h3 : canonicalUnsigned (withAmountValue
      ⟨⟨context, id, type, issuer, issuanceDate, expirationDate,
        ⟨sid, hpii, cl, av, tr, js⟩, decommissionedAt, credentialStatus⟩, prf⟩ v).toUnsignedCredential
      = canonicalUnsigned ⟨context, id, type, issuer, issuanceDate, expirationDate,
        ⟨sid, hpii, cl, av, tr, js⟩, decommissionedAt, credentialStatus⟩ := by
    rw [canonicalUnsigned_eq, canonicalUnsigned_eq]
    rfl
  refine ⟨h1, h2, h3, ?_, ?_, ?_⟩ <;>
    · unfold verifyCredential
      first
      | rw [h1]
      | rw [h2]
      | rw [h3]
      rfl

theorem verification_error_ne_expired (m : String) :
    "Verification error: " ++ m ≠ "Credential has expired" := by
  intro h
  have h2 := congrArg String.data h
  simp at h2

/-- C6.  No `Expired` error is reported when the clock equals the
credential's expiration instant (the boundary is strict: `now >
expirationDate`), and the error is reported whenever the clock is
strictly past it. -/
theorem claim_C6_expiration_boundary (env : Env) (c : VerifiableCredential) :
    ("Credential has expired" ∉
      (verifyCredential env (env.parseDateMs c.expirationDate) c).errors) ∧
    (∀ nowMs : Int, nowMs > env.parseDateMs c.expirationDate →
      "Credential has expired" ∈ (verifyCredential env nowMs c).errors) := by
  constructor
  · unfold verifyCredential
    simp only [gt_iff_lt, lt_irrefl, if_false, List.nil_append]
    rcases hI : env.getIssuerByDid c.issuer.id with _ | issuer <;> simp only [hI]
    · rcases hd : c.decommissionedAt with _ | d <;> simp [hd]
    · rcases hs : verifySignature env (canonicalUnsigned c.toUnsignedCredential)
          c.proof.proofValue issuer.publicKey issuer.signatureAlgorithm with msg | b
      · simp only [hs]
        rcases hd : c.decommissionedAt with _ | d <;>
          simp [hd, Ne.symm (verification_error_ne_expired msg)]
      · simp only [hs]
        rcases hd : c.decommissionedAt with _ | d <;> cases b <;> simp [hd]
  · intro nowMs hgt
    unfold verifyCredential
    simp only [gt_iff_lt, hgt, if_true]
    rcases hI : env.getIssuerByDid c.issuer.id with _ | issuer <;> simp only [hI]
    · simp
    · rcases hs : verifySignature env (canonicalUnsigned c.toUnsignedCredential)
          c.proof.proofValue issuer.publicKey issuer.signatureAlgorithm with msg | b <;>
        simp [hs]

/-- C6 witness: with the mock environment, a credential verified exactly
at its expiration instant reports no `Expired` error, and verified one
millisecond later it does. -/
theorem claim_C6_expiration_boundary_witness :
    ("Credential has expired" ∉
      (verifyCredential mockEnv
        (mockEnv.parseDateMs orphanCredential.expirationDate) orphanCredential).errors) ∧
    ((1001 : Int) > mockEnv.parseDateMs orphanCredential.expirationDate ∧
      "Credential has expired" ∈ (verifyCredential mockEnv 1001 orphanCredential).errors) :=
  ⟨(claim_C6_expiration_boundary mockEnv orphanCredential).1,
   by decide,
   (claim_C6_expiration_boundary mockEnv orphanCredential).2 1001 (by decide)⟩

/-- C7.  `verifySignature` with an unrecognized algorithm tag throws
`Unsupported signature algorithm`; with a recognized tag it never throws
(it always returns a plain boolean), and a structurally malformed
signature yields `false`: for Ed25519, any signature string whose
hex-decoded body (under Node's lenient `Buffer.from(.., 'hex')`) is not
exactly the required 64 bytes — which covers wrong-length bodies and
bodies with a non-hex character before 64 complete pairs; for secp256k1,
any body that is not exactly 128 hex characters (noble's strict compact
parser rejects any non-hex character or wrong length). -/
theorem claim_C7_verifySignature_fail_closed (env : Env) (data sig pk alg : String) :
    (alg ≠ "Ed25519" → alg ≠ "secp256k1" →
      verifySignature env data sig pk alg =
        .error ("Unsupported signature algorithm: " ++ alg)) ∧
    (alg = "Ed25519" ∨ alg = "secp256k1" →
      ∃ b : Bool, verifySignature env data sig pk alg = .ok b) ∧
    (alg = "Ed25519" → (bufferFromHex (sig.drop 1)).length ≠ 64 →
      verifySignature env data sig pk alg = .ok false) ∧
    (alg = "secp256k1" → ¬((sig.drop 1).length = 128 ∧ (sig.drop 1).data.all isHexChar = true) →
      verifySignature env data sig pk alg = .ok false) := by
  refine ⟨?_, ?_, ?_, ?_⟩
  · intro h1 h2
    unfold verifySignature
    rw [if_neg h1, if_neg h2]
  · rintro (h | h) <;> subst h <;> unfold verifySignature <;> simp
  · intro h hlen
    subst h
    unfold verifySignature verifyEd25519 nobleEdVerify
    simp [hlen]
  · intro h hbad
    subst h
    unfold verifySignature verifySecp256k1
    cases hOk : nobleSecpCompactOk (sig.drop 1) with
    | false => simp [hOk]
    | true =>
        exfalso
        apply hbad
        unfold nobleSecpCompactOk at hOk
        simpa using hOk

/-- C7 witness: unrecognized tag `"RSA"` throws; a recognized tag with a
short or non-hex signature body returns `ok false`; a recognized tag
always returns a plain boolean. -/
theorem claim_C7_verifySignature_fail_closed_witness :
    verifySignature mockEnv "payload" "zabcd" "aa" "RSA" =
      .error ("Unsupported signature algorithm: " ++ "RSA") ∧
    verifySignature mockEnv "payload" "zabcd" "aa" "Ed25519" = .ok false ∧
    verifySignature mockEnv "payload" "zNOTHEX" "aa" "secp256k1" = .ok false ∧
    ∃ b : Bool, verifySignature mockEnv "payload" "zabcd" "aa" "Ed25519" = .ok b :=
  ⟨(claim_C7_verifySignature_fail_closed mockEnv "payload" "zabcd" "aa" "RSA").1
      (by decide) (by decide),
   (claim_C7_verifySignature_fail_closed mockEnv "payload" "zabcd" "aa" "Ed25519").2.2.1
      rfl (by decide),
   (claim_C7_verifySignature_fail_closed mockEnv "payload" "zNOTHEX" "aa" "secp256k1").2.2.2
      rfl (by decide),
   (claim_C7_verifySignature_fail_closed mockEnv "payload" "zabcd" "aa" "Ed25519").2.1
      (Or.inl rfl)⟩

/-- C10.  A request with `expiryDays = 0` silently receives the default
of 365 days (`expiryDays || 365` treats `0` as absent), so the issued
credential expires 365 days after issuance instead of the same day. -/
theorem claim_C10_expiry_zero_becomes_365 (env : Env) (ctx : IssueCtx)
    (request : IssueCredentialRequest) (h0 : request.expiryDays = some 0)
    (cred : VerifiableCredential) (hok : issueCredential env ctx request = .ok cred) :
    cred.expirationDate = env.toISOString (ctx.nowMs + 365 * 86400000) ∧
    cred.issuanceDate = env.toISOString ctx.nowMs := by
  unfold issueCredential at hok
  rcases hI : env.getIssuerByDid request.issuerDid with _ | issuer <;> rw [hI] at hok
  · exact absurd hok (by simp)
  rcases hC : env.getCustomerKYC request.customerKycId with _ | kyc <;> rw [hC] at hok
  · exact absurd hok (by simp)
  rw [h0] at hok
  simp only [jsOrIntDefault] at hok
  split at hok
  · exact absurd hok (by simp)
  split at hok
  · exact absurd hok (by simp)
  split at hok
  · exact absurd hok (by simp)
  split at hok
  · exact absurd hok (by simp)
  · rename_i pv hsign
    have hc := Except.ok.inj hok
    subst hc
    constructor <;> simp [jsOrIntDefault]

/-- C10 witness: issuing with `expiryDays = 0` in the mock environment
yields a credential expiring 365 days after issuance. -/
theorem claim_C10_expiry_zero_becomes_365_witness :
    mockRequestZeroExpiry.expiryDays = some 0 ∧
    (issueCredential mockEnv mockCtx mockRequestZeroExpiry).map
        (fun c => (c.expirationDate, c.issuanceDate)) =
      .ok (mockEnv.toISOString (mockCtx.nowMs + 365 * 86400000),
           mockEnv.toISOString mockCtx.nowMs) := by
  refine ⟨rfl, ?_⟩
  rcases hok : issueCredential mockEnv mockCtx mockRequestZeroExpiry with e | cred
  · have hT : (issueCredential mockEnv mockCtx mockRequestZeroExpiry).isOk = true := by decide
    rw [hok] at hT
    exact absurd hT (by simp [Except.isOk, Except.toBool])
  · have h := claim_C10_expiry_zero_becomes_365 mockEnv mockCtx mockRequestZeroExpiry rfl cred hok
    simp [Except.map, h.1, h.2]

/-- C5 (amended).  Compliance gating: after issuer and customer
resolution succeed (an unknown issuer, then an unknown customer, take
precedence), any of the three screenings not being `passed` fails the
issuance before the level and accreditation comparisons are reached —
but with the single generic message `Customer has not passed all
required KYC checks`, which does not name the failing check(s). -/
theorem claim_C5_compliance_gating (env : Env) (ctx : IssueCtx)
    (request : IssueCredentialRequest) :
    (env.getIssuerByDid request.issuerDid = none →
      issueCredential env ctx request =
        .error ("Invalid issuer DID: " ++ request.issuerDid)) ∧
    (∀ issuer, env.getIssuerByDid request.issuerDid = some issuer →
      env.getCustomerKYC request.customerKycId = none →
      issueCredential env ctx request =
        .error ("Customer not found: " ++ request.customerKycId)) ∧
    (∀ issuer kyc, env.getIssuerByDid request.issuerDid = some issuer →
      env.getCustomerKYC request.customerKycId = some kyc →
      (kyc.amlScreening ≠ "passed" ∨ kyc.sanctionsCheck ≠ "passed" ∨
        kyc.pepScreening ≠ "passed") →
      issueCredential env ctx request =
        .error "Customer has not passed all required KYC checks") := by
  refine ⟨?_, ?_, ?_⟩
  · intro h
    unfold issueCredential
    rw [h]
  · intro issuer hI hC
    unfold issueCredential
    rw [hI, hC]
  · intro issuer kyc hI hC hfail
    unfold issueCredential
    simp only [hI, hC]
    rw [if_pos hfail]

/-- C5 counterexample to the claim as stated: a customer failing only AML
screening and a customer failing only the sanctions check produce the
*identical* generic error, so the `ComplianceCheckFailed` error does not
name which check(s) failed. -/
theorem claim_C5_compliance_gating_counterexample :
    mockCustomerAmlFailed.amlScreening = "failed" ∧
    mockCustomerAmlFailed.sanctionsCheck = "passed" ∧
    mockCustomerSanctionsFailed.sanctionsCheck = "failed" ∧
    mockCustomerSanctionsFailed.amlScreening = "passed" ∧
    issueCredential mockEnv mockCtx mockRequestAml =
      .error "Customer has not passed all required KYC checks" ∧
    issueCredential mockEnv mockCtx mockRequestSanctions =
      .error "Customer has not passed all required KYC checks" ∧
    issueCredential mockEnv mockCtx mockRequestAml =
      issueCredential mockEnv mockCtx mockRequestSanctions :=
  ⟨rfl, rfl, rfl, rfl, by decide, by decide, by decide⟩

/-- C5 witness: issuing for the sanctions-failed customer in the mock
environment fails with the generic compliance error. -/
theorem claim_C5_compliance_gating_witness :
    mockEnv.getIssuerByDid mockRequestSanctions.issuerDid = some mockIssuer ∧
    mockEnv.getCustomerKYC mockRequestSanctions.customerKycId =
      some mockCustomerSanctionsFailed ∧
    mockCustomerSanctionsFailed.sanctionsCheck ≠ "passed" ∧
    issueCredential mockEnv mockCtx mockRequestSanctions =
      .error "Customer has not passed all required KYC checks" :=
  ⟨by decide, by decide, by decide,
   (claim_C5_compliance_gating mockEnv mockCtx mockRequestSanctions).2.2 mockIssuer
     mockCustomerSanctionsFailed (by decide) (by decide)
     (Or.inr (Or.inl (by decide)))⟩

/-- C4 (amended).  Expiration and revocation always contribute their
errors; if the issuer cannot be resolved, signature verification is
skipped, `valid` is `false` and `Unknown issuer` is *appended to the
already-accumulated errors* (so the list is exactly `[Unknown issuer]`
only when the credential is neither expired nor revoked); for a
resolvable issuer the signature check also runs and appends its error. -/
theorem claim_C4_error_accumulation (env : Env) (nowMs : Int) (c : VerifiableCredential) :
    (env.getIssuerByDid c.issuer.id = none →
      verifyCredential env nowMs c =
        { valid := false, errors :=
            ((if nowMs > env.parseDateMs c.expirationDate
                then ["Credential has expired"] else []) ++
             (if c.decommissionedAt ≠ none
                then ["Credential has been decommissioned"] else [])) ++
            ["Unknown issuer"] }) ∧
    (∀ issuer, env.getIssuerByDid c.issuer.id = some issuer →
      (∀ sv, verifySignature env (canonicalUnsigned c.toUnsignedCredential)
          c.proof.proofValue issuer.publicKey issuer.signatureAlgorithm = .ok sv →
        verifyCredential env nowMs c =
          { valid :=
              (((if nowMs > env.parseDateMs c.expirationDate
                  then ["Credential has expired"] else []) ++
                (if c.decommissionedAt ≠ none
                  then ["Credential has been decommissioned"] else [])) ++
               (if sv then [] else ["Invalid signature"])).isEmpty && sv,
            errors :=
              ((if nowMs > env.parseDateMs c.expirationDate
                  then ["Credential has expired"] else []) ++
               (if c.decommissionedAt ≠ none
                  then ["Credential has been decommissioned"] else [])) ++
              (if sv then [] else ["Invalid signature"]) }) ∧
      (∀ msg, verifySignature env (canonicalUnsigned c.toUnsignedCredential)
          c.proof.proofValue issuer.publicKey issuer.signatureAlgorithm = .error msg →
        verifyCredential env nowMs c =
          { valid := false, errors :=
              ((if nowMs > env.parseDateMs c.expirationDate
                  then ["Credential has expired"] else []) ++
               (if c.decommissionedAt ≠ none
                  then ["Credential has been decommissioned"] else [])) ++
              ["Verification error: " ++ msg] })) := by
  refine ⟨?_, ?_⟩
  · intro h
    unfold verifyCredential
    rw [h]
  · intro issuer hI
    refine ⟨?_, ?_⟩
    · intro sv hs
      simp only [verifyCredential]
      rw [hI]
      simp only [hs]
    · intro msg hs
      simp only [verifyCredential]
      rw [hI]
      simp only [hs]

/-- C4 counterexample to the claim as stated: an expired credential with
an unknown issuer reports two errors — `Credential has expired` followed
by `Unknown issuer` — not "exactly the single UnknownIssuer entry". -/
theorem claim_C4_error_accumulation_counterexample :
    verifyCredential mockEnv 2000 orphanCredential =
      { valid := false, errors := ["Credential has expired", "Unknown issuer"] } ∧
    (verifyCredential mockEnv 2000 orphanCredential).errors ≠ ["Unknown issuer"] :=
  ⟨by decide, by decide⟩

/-- C4 witness: a not-yet-expired credential with an unknown issuer gives
`valid = false` with the accumulated-errors shape of the amended claim
(here the accumulated prefix is empty). -/
theorem claim_C4_error_accumulation_witness :
    mockEnv.getIssuerByDid orphanCredential.issuer.id = none ∧
    verifyCredential mockEnv 500 orphanCredential =
      { valid := false, errors :=
          ((if (500 : Int) > mockEnv.parseDateMs orphanCredential.expirationDate
              then ["Credential has expired"] else []) ++
           (if orphanCredential.decommissionedAt ≠ none
              then ["Credential has been decommissioned"] else [])) ++
          ["Unknown issuer"] } :=
  ⟨by decide, (claim_C4_error_accumulation mockEnv 500 orphanCredential).1 (by decide)⟩

theorem batchIssueGo_eq (env : Env) (ctxs : Nat → IssueCtx) :
    ∀ (requests : List IssueCredentialRequest) (i : Nat),
      batchIssueGo env ctxs i requests =
        { successful := (List.enumFrom i requests).filterMap
            (fun p => (issueCredential env (ctxs p.1) p.2).toOption),
          failed := (List.enumFrom i requests).filterMap
            (fun p => match issueCredential env (ctxs p.1) p.2 with
              | .ok _ => none
              | .error e => some (p.2, e)) } := by
  intro requests
  induction requests with
  | nil => intro i; rfl
  | cons r rest ih =>
      intro i
      unfold batchIssueGo
      rw [ih (i + 1)]
      cases h : issueCredential env (ctxs i) r <;>
        simp [List.enumFrom, h, Except.toOption]

theorem batchIssueGo_length (env : Env) (ctxs : Nat → IssueCtx) :
    ∀ (requests : List IssueCredentialRequest) (i : Nat),
      (batchIssueGo env ctxs i requests).successful.length +
        (batchIssueGo env ctxs i requests).failed.length = requests.length := by
  intro requests
  induction requests with
  | nil => intro i; rfl
  | cons r rest ih =>
      intro i
      unfold batchIssueGo
      cases h : issueCredential env (ctxs i) r <;> simp [h] <;>
        have := ih (i + 1) <;> omega

/-- C8.  `batchIssueCredentials` processes the requests independently and
in input order: the successes are exactly the `filterMap` of
`issueCredential` over the indexed input list (so one request's outcome
depends only on that request and its own clock/randomness draw, and both
output lists preserve the relative input order); every request lands in
exactly one list (the lengths add up); and every element of `successful`
is the complete credential returned by `issueCredential` for some input
request — no partial credential can appear. -/
theorem claim_C8_batch_independent_ordered (env : Env) (ctxs : Nat → IssueCtx)
    (requests : List IssueCredentialRequest) :
    (batchIssueCredentials env ctxs requests).successful =
      requests.enum.filterMap (fun p => (issueCredential env (ctxs p.1) p.2).toOption) ∧
    (batchIssueCredentials env ctxs requests).failed =
      requests.enum.filterMap (fun p =>
        match issueCredential env (ctxs p.1) p.2 with
        | .ok _ => none
        | .error e => some (p.2, e)) ∧
    (batchIssueCredentials env ctxs requests).successful.length +
      (batchIssueCredentials env ctxs requests).failed.length = requests.length ∧
    (∀ c ∈ (batchIssueCredentials env ctxs requests).successful,
      ∃ p ∈ requests.enum, issueCredential env (ctxs p.1) p.2 = .ok c) := by
  have hchar := batchIssueGo_eq env ctxs requests 0
  have hlen := batchIssueGo_length env ctxs requests 0
  refine ⟨?_, ?_, ?_, ?_⟩
  · rw [batchIssueCredentials, hchar]
    rfl
  · rw [batchIssueCredentials, hchar]
    rfl
  · rw [batchIssueCredentials]
    exact hlen
  · intro c hc
    rw [batchIssueCredentials, hchar] at hc
    simp only [List.mem_filterMap] at hc
    obtain ⟨p, hp, he⟩ := hc
    refine ⟨p, hp, ?_⟩
    cases h : issueCredential env (ctxs p.1) p.2 with
    | error e => rw [h] at he; simp [Except.toOption] at he
    | ok d => rw [h] at he; simp [Except.toOption] at he; rw [he]

theorem insertStr_perm (x : String) : ∀ l : List String, (insertStr x l).Perm (x :: l) := by
  intro l
  induction l with
  | nil => simp [insertStr]
  | cons y ys ih =>
      unfold insertStr
      by_cases h : strLeb x y = true
      · rw [if_pos h]
      · rw [if_neg h]
        exact ((ih.cons y).trans (List.Perm.swap x y ys))

theorem sortStrings_perm : ∀ l : List String, (sortStrings l).Perm l := by
  intro l
  induction l with
  | nil => simp [sortStrings]
  | cons x xs ih =>
      unfold sortStrings
      exact (insertStr_perm x (sortStrings xs)).trans (ih.cons x)

theorem mem_sortStrings {a : String} {l : List String} : a ∈ sortStrings l ↔ a ∈ l :=
  (sortStrings_perm l).mem_iff

theorem olookup_eq_none : ∀ {fs : JsonObj} {k : String},
    olookup fs k = none ↔ k ∉ okeys fs
  | .nil, k => by simp [olookup, okeys]
  | .cons k' v fs, k => by
      unfold olookup okeys
      by_cases h : k' = k
      · subst h; simp
      · rw [if_neg h]
        simp [@olookup_eq_none fs k, Ne.symm h, h]

theorem sizeOf_olookup : ∀ {fs : JsonObj} {k : String} {v : Json},
    olookup fs k = some v → sizeOf v < sizeOf fs
  | .nil, k, v => by intro h; simp [olookup] at h
  | .cons k' v' fs, k, v => by
      intro h
      unfold olookup at h
      by_cases hk : k' = k
      · rw [if_pos hk] at h
        have hv := Option.some.inj h
        subst hv
        simp
        omega
      · rw [if_neg hk] at h
        have := sizeOf_olookup h
        simp
        omega

theorem lookupStr_serializeFields (K : List String) :
    ∀ (fs : JsonObj) (k : String),
      lookupStr (serializeFields K fs) k = (olookup fs k).map (serializeJson K)
  | .nil, k => rfl
  | .cons k' v fs, k => by
      unfold serializeFields lookupStr olookup
      by_cases h : k' = k
      · rw [if_pos h, if_pos h]
        rfl
      · rw [if_neg h, if_neg h]
        exact lookupStr_serializeFields K fs k

theorem osub_lookup : ∀ {fs gs : JsonObj} {k : String} {v : Json},
    osub fs gs = true → olookup fs k = some v →
    ∃ w, olookup gs k = some w ∧ jequiv v w = true
  | .nil, gs, k, v => by intro _ h; simp [olookup] at h
  | .cons k' v' fs, gs, k, v => by
      intro hsub h
      unfold osub at hsub
      rw [Bool.and_eq_true] at hsub
      obtain ⟨hhead, htail⟩ := hsub
      unfold olookup at h
      by_cases hk : k' = k
      · rw [if_pos hk] at h
        have hv := Option.some.inj h
        subst hv
        subst hk
        cases hg : olookup gs k' with
        | none => rw [hg] at hhead; simp at hhead
        | some w =>
            rw [hg] at hhead
            exact ⟨w, rfl, hhead⟩
      · rw [if_neg hk] at h
        exact osub_lookup htail h

theorem filterMapCongr {α β : Type} : ∀ (l : List α) (f g : α → Option β),
    (∀ x ∈ l, f x = g x) → l.filterMap f = l.filterMap g := by
  intro l f g h
  induction l with
  | nil => rfl
  | cons x xs ih =>
      rw [List.filterMap_cons, List.filterMap_cons, h x (by simp),
        ih (fun y hy => h y (by simp [hy]))]

theorem serializeJson_congr_aux : ∀ n : Nat,
    (∀ (a b : Json), sizeOf a ≤ n → jequiv a b = true →
      ∀ K, serializeJson K a = serializeJson K b) ∧
    (∀ (xs ys : JsonArr), sizeOf xs ≤ n → aequiv xs ys = true →
      ∀ K, serializeElems K xs = serializeElems K ys) := by
  intro n
  induction n using Nat.strong_induction_on with
  | _ n ih =>
    constructor
    · intro a b hsize he K
      cases a with
      | null => cases b <;> simp [jequiv] at he <;> try rfl
      | bool x => cases b <;> simp [jequiv] at he <;> (try subst he) <;> try rfl
      | num x => cases b <;> simp [jequiv] at he <;> (try subst he) <;> try rfl
      | str x => cases b <;> simp [jequiv] at he <;> (try subst he) <;> try rfl
      | arr xs =>
          cases b with
          | arr ys =>
              have hx : sizeOf xs < n := by
                have : sizeOf (Json.arr xs) ≤ n := hsize
                simp at this
                omega
              have he2 : aequiv xs ys = true := by simpa [jequiv] using he
              have := (ih (sizeOf xs) hx).2 xs ys (le_refl _) he2 K
              simp only [serializeJson]
              rw [this]
          | null => simp [jequiv] at he
          | bool y => simp [jequiv] at he
          | num y => simp [jequiv] at he
          | str y => simp [jequiv] at he
          | obj gs => simp [jequiv] at he
      | obj fs =>
          cases b with
          | obj gs =>
              have he2 : sortStrings (okeys fs) = sortStrings (okeys gs) ∧
                  osub fs gs = true := by simpa [jequiv] using he
              obtain ⟨hkeys, hsub⟩ := he2
              have hfs : sizeOf fs < n := by
                have : sizeOf (Json.obj fs) ≤ n := hsize
                simp at this
                omega
              simp only [serializeJson]
              have hmaps : ∀ k ∈ K,
                  (lookupStr (serializeFields K fs) k).map
                    (fun sv => quoteJson k ++ ":" ++ sv) =
                  (lookupStr (serializeFields K gs) k).map
                    (fun sv => quoteJson k ++ ":" ++ sv) := by
                intro k _
                rw [lookupStr_serializeFields, lookupStr_serializeFields]
                cases hfk : olookup fs k with
                | some v =>
                    obtain ⟨w, hgk, hvw⟩ := osub_lookup hsub hfk
                    rw [hgk]
                    have hv : sizeOf v < n := by
                      have := sizeOf_olookup hfk
                      omega
                    have := (ih (sizeOf v) hv).1 v w (le_refl _) hvw K
                    simp [this]
                | none =>
                    have hmem : k ∉ okeys fs := olookup_eq_none.mp hfk
                    have hmem2 : k ∉ okeys gs := by
                      intro hin
                      exact hmem (mem_sortStrings.mp (hkeys ▸ mem_sortStrings.mpr hin))
                    rw [olookup_eq_none.mpr hmem2]
              rw [filterMapCongr K _ _ hmaps]
          | null => simp [jequiv] at he
          | bool y => simp [jequiv] at he
          | num y => simp [jequiv] at he
          | str y => simp [jequiv] at he
          | arr ys => simp [jequiv] at he
    · intro xs ys hsize he K
      cases xs with
      | nil => cases ys <;> simp [aequiv] at he <;> try rfl
      | cons x xs =>
          cases ys with
          | nil => simp [aequiv] at he
          | cons y ys =>
              have he2 : jequiv x y = true ∧ aequiv xs ys = true := by
                simpa [aequiv] using he
              have hx : sizeOf x < n := by
                have : sizeOf (JsonArr.cons x xs) ≤ n := hsize
                simp at this
                omega
              have hxs : sizeOf xs < n := by
                have : sizeOf (JsonArr.cons x xs) ≤ n := hsize
                simp at this
                omega
              simp only [serializeElems]
              rw [(ih (sizeOf x) hx).1 x y (le_refl _) he2.1 K,
                (ih (sizeOf xs) hxs).2 xs ys (le_refl _) he2.2 K]

/-- C3.  The canonicalization used for signing and verification
(`canonicalizeJson`, i.e. `JSON.stringify(payload,
Object.keys(payload).sort())`) maps structurally-equal payloads — same
field values at every nesting level, any field-insertion order at any
nesting level (`jequiv`) — to identical bytes. -/
theorem claim_C3_canonicalization_deterministic (a b : Json)
    (he : jequiv a b = true) : canonicalizeJson a = canonicalizeJson b := by
  have hser := (serializeJson_congr_aux (sizeOf a)).1 a b (le_refl _) he
  unfold canonicalizeJson
  have hkeys : sortStrings (topKeys a) = sortStrings (topKeys b) := by
    cases a <;> cases b <;> simp [jequiv] at he <;> simp [topKeys]
    exact he.1
  rw [hkeys]
  exact hser _

/-- C3 witness: two concrete payloads with different insertion order at
both nesting levels canonicalize to identical bytes. -/
theorem claim_C3_canonicalization_deterministic_witness :
    jequiv exampleJsonA exampleJsonB = true ∧
    canonicalizeJson exampleJsonA = canonicalizeJson exampleJsonB :=
  ⟨by decide, claim_C3_canonicalization_deterministic exampleJsonA exampleJsonB (by decide)⟩

theorem issueCredential_ok_spec (env : Env) (ctx : IssueCtx)
    (request : IssueCredentialRequest) (issuer : BankIssuer) (kycData : CustomerKYCData)
    (hIss : env.getIssuerByDid request.issuerDid = some issuer)
    (hCust : env.getCustomerKYC request.customerKycId = some kycData)
    (cred : VerifiableCredential)
    (hok : issueCredential env ctx request = .ok cred) :
    cred.issuanceDate = env.toISOString ctx.nowMs ∧
    cred.expirationDate =
      env.toISOString (ctx.nowMs + jsOrIntDefault request.expiryDays 365 * 86400000) ∧
    cred.decommissionedAt = none ∧
    cred.issuer.id = issuer.did ∧
    signCredential env (canonicalUnsigned cred.toUnsignedCredential) issuer.privateKey
      (jsOrStrDefault request.signatureAlgorithm issuer.signatureAlgorithm) =
      .ok cred.proof.proofValue := by
  unfold issueCredential at hok
  simp only [hIss, hCust] at hok
  split at hok
  · exact absurd hok (by simp)
  split at hok
  · exact absurd hok (by simp)
  split at hok
  · exact absurd hok (by simp)
  split at hok
  · exact absurd hok (by simp)
  · rename_i pv hsign
    have hc := Except.ok.inj hok
    subst hc
    exact ⟨rfl, rfl, rfl, rfl, hsign⟩

theorem signCredential_ok_of_known (env : Env) (d k alg : String)
    (halg : alg = "Ed25519" ∨ alg = "secp256k1") :
    ∃ pv, signCredential env d k alg = .ok pv := by
  rcases halg with h | h <;> subst h <;> simp [signCredential]

theorem issueCredential_isOk (env : Env) (ctx : IssueCtx)
    (request : IssueCredentialRequest) (issuer : BankIssuer) (kycData : CustomerKYCData)
    (hIss : env.getIssuerByDid request.issuerDid = some issuer)
    (hCust : env.getCustomerKYC request.customerKycId = some kycData)
    (hAml : kycData.amlScreening = "passed")
    (hSan : kycData.sanctionsCheck = "passed")
    (hPep : kycData.pepScreening = "passed")
    (hLvl : request.kycLevel = kycData.kycLevel)
    (hAcc : request.accreditedInvestor = kycData.accreditedInvestor)
    (halg : jsOrStrDefault request.signatureAlgorithm issuer.signatureAlgorithm = "Ed25519" ∨
      jsOrStrDefault request.signatureAlgorithm issuer.signatureAlgorithm = "secp256k1") :
    ∃ cred, issueCredential env ctx request = .ok cred := by
  unfold issueCredential
  simp only [hIss, hCust]
  rw [if_neg (by simp [hAml, hSan, hPep]), if_neg (by simp [hLvl]), if_neg (by simp [hAcc])]
  obtain ⟨pv, hpv⟩ := signCredential_ok_of_known env _ issuer.privateKey _ halg
  rw [hpv]
  exact ⟨_, rfl⟩

theorem signCredential_roundTrip (env : Env) (d : String) (issuer : BankIssuer)
    (pv : String)
    (hPk : (bufferFromHex issuer.publicKey).length = 32)
    (hCrypto :
      (issuer.signatureAlgorithm = "Ed25519" ∧
        ∀ m : List Nat, (∀ x ∈ m, x < 256) →
          (env.edSignCore m (bufferFromHex issuer.privateKey)).length = 64 ∧
          (∀ x ∈ env.edSignCore m (bufferFromHex issuer.privateKey), x < 256) ∧
          env.edVerifyCore (env.edSignCore m (bufferFromHex issuer.privateKey)) m
            (bufferFromHex issuer.publicKey) = .ok true) ∨
      (issuer.signatureAlgorithm = "secp256k1" ∧
        ∀ h : String,
          nobleSecpCompactOk
            (env.secpSignCompactHex h (bufferFromHex issuer.privateKey)) = true ∧
          env.secpVerifyCore (env.secpSignCompactHex h (bufferFromHex issuer.privateKey)) h
            (bufferFromHex issuer.publicKey) = .ok true))
    (hsign : signCredential env d issuer.privateKey issuer.signatureAlgorithm = .ok pv) :
    verifySignature env d pv issuer.publicKey issuer.signatureAlgorithm = .ok true := by
  rcases hCrypto with ⟨hEd, hP⟩ | ⟨hSecp, hP⟩
  · rw [hEd] at hsign ⊢
    unfold signCredential at hsign
    rw [if_pos rfl] at hsign
    have hpv := Except.ok.inj hsign
    subst hpv
    unfold verifySignature
    rw [if_pos rfl]
    unfold signWithEd25519 verifyEd25519
    rw [drop_one_z_append]
    obtain ⟨hlen, hbytes, hver⟩ := hP (bufferFromHex (env.sha256Hash d)) (bufferFromHex_lt _)
    rw [bufferFromHex_bytesToHex _ hbytes]
    unfold nobleEdVerify
    simp [hlen, hPk, hver]
  · rw [hSecp] at hsign ⊢
    unfold signCredential at hsign
    rw [if_neg (by decide), if_pos rfl] at hsign
    have hpv := Except.ok.inj hsign
    subst hpv
    unfold verifySignature
    rw [if_neg (by decide), if_pos rfl]
    unfold signWithSecp256k1 verifySecp256k1
    rw [drop_one_z_append]
    obtain ⟨hok, hver⟩ := hP (env.sha256Hash d)
    rw [if_pos hok, hver]

/-- C2 (amended).  For a valid request — known issuer and customer, all
compliance checks passed, level and accreditation matching — *whose
signature-algorithm override (after JS-falsy defaulting) resolves to the
issuer's declared algorithm*, verification immediately after issuance
succeeds with an empty error list.  The cryptographic hypotheses say the
issuer's key pair is consistent for its declared scheme and that the JS
`Date` round-trips the one timestamp involved; `hIssSelf` says the
registry maps the issuer's own DID back to it. -/
theorem claim_C2_roundtrip (env : Env) (ctx : IssueCtx)
    (request : IssueCredentialRequest) (issuer : BankIssuer) (kycData : CustomerKYCData)
    (hIss : env.getIssuerByDid request.issuerDid = some issuer)
    (hIssSelf : env.getIssuerByDid issuer.did = some issuer)
    (hCust : env.getCustomerKYC request.customerKycId = some kycData)
    (hAml : kycData.amlScreening = "passed")
    (hSan : kycData.sanctionsCheck = "passed")
    (hPep : kycData.pepScreening = "passed")
    (hLvl : request.kycLevel = kycData.kycLevel)
    (hAcc : request.accreditedInvestor = kycData.accreditedInvestor)
    (hExpDays : ∀ d, request.expiryDays = some d → 0 ≤ d)
    (hOverride : jsOrStrDefault request.signatureAlgorithm issuer.signatureAlgorithm =
      issuer.signatureAlgorithm)
    (hDateRT : env.parseDateMs (env.toISOString (ctx.nowMs +
        jsOrIntDefault request.expiryDays 365 * 86400000)) =
      ctx.nowMs + jsOrIntDefault request.expiryDays 365 * 86400000)
    (hPk : (bufferFromHex issuer.publicKey).length = 32)
    (hCrypto :
      (issuer.signatureAlgorithm = "Ed25519" ∧
        ∀ m : List Nat, (∀ x ∈ m, x < 256) →
          (env.edSignCore m (bufferFromHex issuer.privateKey)).length = 64 ∧
          (∀ x ∈ env.edSignCore m (bufferFromHex issuer.privateKey), x < 256) ∧
          env.edVerifyCore (env.edSignCore m (bufferFromHex issuer.privateKey)) m
            (bufferFromHex issuer.publicKey) = .ok true) ∨
      (issuer.signatureAlgorithm = "secp256k1" ∧
        ∀ h : String,
          nobleSecpCompactOk
            (env.secpSignCompactHex h (bufferFromHex issuer.privateKey)) = true ∧
          env.secpVerifyCore (env.secpSignCompactHex h (bufferFromHex issuer.privateKey)) h
            (bufferFromHex issuer.publicKey) = .ok true)) :
    ∃ credential, issueCredential env ctx request = .ok credential ∧
      verifyCredential env ctx.nowMs credential = { valid := true, errors := [] } := by
  have halg : jsOrStrDefault request.signatureAlgorithm issuer.signatureAlgorithm = "Ed25519" ∨
      jsOrStrDefault request.signatureAlgorithm issuer.signatureAlgorithm = "secp256k1" := by
    rcases hCrypto with ⟨h, _⟩ | ⟨h, _⟩
    · exact Or.inl (hOverride.trans h)
    · exact Or.inr (hOverride.trans h)
  obtain ⟨cred, hIssue⟩ := issueCredential_isOk env ctx request issuer kycData
    hIss hCust hAml hSan hPep hLvl hAcc halg
  obtain ⟨hIssuance, hExpiration, hDecom, hIssuerId, hSign⟩ :=
    issueCredential_ok_spec env ctx request issuer kycData hIss hCust cred hIssue
  rw [hOverride] at hSign
  have hVerSig := signCredential_roundTrip env
    (canonicalUnsigned cred.toUnsignedCredential) issuer cred.proof.proofValue hPk hCrypto hSign
  have hePos : 1 ≤ jsOrIntDefault request.expiryDays 365 := by
    unfold jsOrIntDefault
    cases hE : request.expiryDays with
    | none => simp
    | some dd =>
        have hdd := hExpDays dd hE
        by_cases h0 : dd = 0 <;> simp [h0] <;> omega
  refine ⟨cred, hIssue, ?_⟩
  unfold verifyCredential
  rw [hExpiration, hDateRT, hDecom, hIssuerId, hIssSelf,
    if_neg (by omega), if_neg (by simp)]
  simp [hVerSig]

theorem mockEnv_edCrypto : ∀ m : List Nat, (∀ x ∈ m, x < 256) →
    (mockEnv.edSignCore m (bufferFromHex mockIssuer.privateKey)).length = 64 ∧
    (∀ x ∈ mockEnv.edSignCore m (bufferFromHex mockIssuer.privateKey), x < 256) ∧
    mockEnv.edVerifyCore (mockEnv.edSignCore m (bufferFromHex mockIssuer.privateKey)) m
      (bufferFromHex mockIssuer.publicKey) = .ok true := by
  intro m hm
  refine ⟨?_, ?_, ?_⟩
  · show ((((1 :: m) ++ bufferFromHex mockKeyHex ++ mockSigPad).take 64)).length = 64
    simp [mockSigPad]
    omega
  · intro x hx
    have hx2 : x ∈ (1 :: m) ++ bufferFromHex mockKeyHex ++ mockSigPad :=
      List.mem_of_mem_take hx
    simp only [List.mem_append, List.mem_cons] at hx2
    rcases hx2 with ((h | h) | h) | h
    · subst h
      omega
    · exact hm x h
    · exact bufferFromHex_lt _ x h
    · simp [mockSigPad] at h
      omega
  · show mockEdVerifyCore (mockEdSign m (bufferFromHex mockKeyHex)) m
      (bufferFromHex mockKeyHex) = .ok true
    simp [mockEdSign, mockEdVerifyCore]

/-- C2 witness: issuing and immediately verifying the fully valid mock
request (no algorithm override) yields `valid = true` with no errors. -/
theorem claim_C2_roundtrip_witness :
    (issueCredential mockEnv mockCtx mockRequest).map
        (fun c => verifyCredential mockEnv mockCtx.nowMs c) =
      .ok { valid := true, errors := [] } := by
  obtain ⟨cred, hIssue, hVerify⟩ := claim_C2_roundtrip mockEnv mockCtx mockRequest
    mockIssuer mockCustomer (by decide) (by decide) (by decide) rfl rfl rfl rfl rfl
    (by intro d hd; injection hd with h; omega)
    rfl (by decide) (by decide)
    (Or.inl ⟨rfl, mockEnv_edCrypto⟩)
  rw [hIssue]
  simp [Except.map, hVerify]

set_option maxRecDepth 200000 in
/-- C2 counterexample to the claim as stated ("any optional
signature-algorithm override"): the same fully valid request with the
override `secp256k1` against the Ed25519 mock issuer signs with
secp256k1, but `verifyCredential` verifies with the issuer's *declared*
algorithm, so the round trip fails with `Invalid signature`. -/
theorem claim_C2_roundtrip_counterexample :
    mockRequestOverride.signatureAlgorithm = some "secp256k1" ∧
    mockIssuer.signatureAlgorithm = "Ed25519" ∧
    mockEnv.getIssuerByDid mockRequestOverride.issuerDid = some mockIssuer ∧
    mockEnv.getCustomerKYC mockRequestOverride.customerKycId = some mockCustomer ∧
    mockCustomer.amlScreening = "passed" ∧
    mockCustomer.sanctionsCheck = "passed" ∧
    mockCustomer.pepScreening = "passed" ∧
    mockRequestOverride.kycLevel = mockCustomer.kycLevel ∧
    mockRequestOverride.accreditedInvestor = mockCustomer.accreditedInvestor ∧
    (issueCredential mockEnv mockCtx mockRequestOverride).map
        (fun c => verifyCredential mockEnv mockCtx.nowMs c) =
      .ok { valid := false, errors := ["Invalid signature"] } :=
  ⟨rfl, rfl, by decide, by decide, rfl, rfl, rfl, rfl, rfl, by decide⟩

set_option maxRecDepth 20000 in
set_option maxHeartbeats 1000000 in
/-- Changing `decommissionedAt` from `null` to a timestamp changes the
canonical bytes: the field is part of the signed payload. -/
theorem canonicalUnsigned_decommission_ne (u : UnsignedCredential) (s : String)
    (h : u.decommissionedAt = none) :
    canonicalUnsigned { u with decommissionedAt := some s } ≠ canonicalUnsigned u := by
  intro heq
  cases u with
  | mk context id type issuer issuanceDate expirationDate credentialSubject
      decommissionedAt credentialStatus =>
    subst h
    rw [canonicalUnsigned_eq, canonicalUnsigned_eq] at heq
    have h2 := congrArg String.data heq
    simp [quoteJson] at h2

set_option maxRecDepth 20000 in
set_option maxHeartbeats 1000000 in
/-- The canonical bytes of an active credential contain the top-level
entry `"decommissionedAt":null`. -/
theorem canonicalUnsigned_includes_null (u : UnsignedCredential)
    (h : u.decommissionedAt = none) :
    ∃ p q, canonicalUnsigned u = p ++ ("\"decommissionedAt\":null" ++ q) := by
  cases u with
  | mk context id type issuer issuanceDate expirationDate credentialSubject
      decommissionedAt credentialStatus =>
    subst h
    rw [canonicalUnsigned_eq]
    refine ⟨"\x7b\"@context\":" ++ serializeJson canonKeys (strListJson context) ++
      ",\"credentialStatus\":\x7b\"id\":" ++ quoteJson credentialStatus.id ++
      ",\"type\":" ++ quoteJson credentialStatus.type ++
      "\x7d,\"credentialSubject\":\x7b\"id\":" ++ quoteJson credentialSubject.id ++ "\x7d,",
      ",\"expirationDate\":" ++ quoteJson expirationDate ++
      ",\"id\":" ++ quoteJson id ++ ",\"issuanceDate\":" ++ quoteJson issuanceDate ++
      ",\"issuer\":\x7b\"id\":" ++ quoteJson issuer.id ++
      "\x7d,\"type\":" ++ serializeJson canonKeys (strListJson type) ++ "\x7d", ?_⟩
    apply String.ext
    simp

theorem verifySignature_ok_of_ok (env : Env) (d s pk alg : String) (b : Bool)
    (h : verifySignature env d s pk alg = .ok b) :
    ∀ d2 s2 pk2 : String, ∃ b2, verifySignature env d2 s2 pk2 alg = .ok b2 := by
  intro d2 s2 pk2
  unfold verifySignature at h ⊢
  by_cases h1 : alg = "Ed25519"
  · rw [if_pos h1]
    exact ⟨_, rfl⟩
  · by_cases h2 : alg = "secp256k1"
    · rw [if_neg h1, if_pos h2]
      exact ⟨_, rfl⟩
    · rw [if_neg h1, if_neg h2] at h
      exact absurd h (by simp)

theorem bufferFromHex_mockHash (sx : String) :
    bufferFromHex (mockHash sx) =
      [sx.length / 16777216 % 256, sx.length / 65536 % 256,
       sx.length / 256 % 256, sx.length % 256] := by
  unfold mockHash
  apply bufferFromHex_bytesToHex
  intro b hb
  simp only [List.mem_cons, List.not_mem_nil, or_false] at hb
  rcases hb with h | h | h | h <;> omega

theorem mockEd_extract {d s pk : String}
    (h : verifySignature mockEnv d s pk "Ed25519" = .ok true) :
    bufferFromHex (s.drop 1) =
      ((1 :: bufferFromHex (mockHash d)) ++ bufferFromHex pk ++ mockSigPad).take 64 := by
  unfold verifySignature at h
  rw [if_pos rfl] at h
  have hb := Except.ok.inj h
  simp only [verifyEd25519, nobleEdVerify] at hb
  split at hb
  · rename_i val heq
    subst hb
    split at heq
    · exact absurd heq (by simp)
    split at heq
    · exact absurd heq (by simp)
    simp only [mockEnv, mockEdVerifyCore] at heq
    have h3 := Except.ok.inj heq
    simpa using h3
  · simp at hb

theorem mockEnv_sigUnique (s pk : String) : ∀ d d' : String,
    verifySignature mockEnv d s pk "Ed25519" = .ok true →
    verifySignature mockEnv d' s pk "Ed25519" = .ok true →
    bufferFromHex (mockEnv.sha256Hash d) = bufferFromHex (mockEnv.sha256Hash d') := by
  intro d d' h1 h2
  have e1 := mockEd_extract h1
  have e2 := mockEd_extract h2
  have hT := e1.symm.trans e2
  rw [bufferFromHex_mockHash d, bufferFromHex_mockHash d'] at hT
  simp only [List.cons_append, List.take_succ_cons, List.cons.injEq, List.nil_append,
    true_and] at hT
  show bufferFromHex (mockHash d) = bufferFromHex (mockHash d')
  rw [bufferFromHex_mockHash d, bufferFromHex_mockHash d']
  simp [hT.1, hT.2.1, hT.2.2.1, hT.2.2.2.1]

/-- C9.  `decommissionedAt` is a top-level key of the signed payload
(serialized as `"decommissionedAt":null` at issuance), so revoking a
credential that verifies changes the re-canonicalized bytes; verifying
the revoked copy therefore fails with an `Invalid signature` error in
addition to the revocation error.  `hUnique` is the cryptographic
assumption that the credential's signature accepts at most one message
digest under the issuer's key, and `hColl` that the two canonical forms
do not collide under the hash. -/
theorem claim_C9_revocation_changes_signed_bytes (env : Env) (nowMs now2 revMs : Int)
    (c : VerifiableCredential) (issuer : BankIssuer)
    (hIss : env.getIssuerByDid c.issuer.id = some issuer)
    (hValid : verifyCredential env nowMs c = { valid := true, errors := [] })
    (hUnique : ∀ d d' : String,
      verifySignature env d c.proof.proofValue issuer.publicKey
        issuer.signatureAlgorithm = .ok true →
      verifySignature env d' c.proof.proofValue issuer.publicKey
        issuer.signatureAlgorithm = .ok true →
      bufferFromHex (env.sha256Hash d) = bufferFromHex (env.sha256Hash d'))
    (hColl : bufferFromHex (env.sha256Hash (canonicalUnsigned
        (revokeCredential env revMs c).toUnsignedCredential)) ≠
      bufferFromHex (env.sha256Hash (canonicalUnsigned c.toUnsignedCredential))) :
    canonicalUnsigned (revokeCredential env revMs c).toUnsignedCredential ≠
      canonicalUnsigned c.toUnsignedCredential ∧
    (∃ p q, canonicalUnsigned c.toUnsignedCredential =
      p ++ ("\"decommissionedAt\":null" ++ q)) ∧
    (verifyCredential env now2 (revokeCredential env revMs c)).valid = false ∧
    "Credential has been decommissioned" ∈
      (verifyCredential env now2 (revokeCredential env revMs c)).errors ∧
    "Invalid signature" ∈
      (verifyCredential env now2 (revokeCredential env revMs c)).errors := by
  unfold verifyCredential at hValid
  simp only [hIss] at hValid
  rcases hs : verifySignature env (canonicalUnsigned c.toUnsignedCredential)
      c.proof.proofValue issuer.publicKey issuer.signatureAlgorithm with msg | sv
  · simp only [hs] at hValid
    exact absurd hValid (by simp)
  simp only [hs] at hValid
  simp only [VerificationResult.mk.injEq] at hValid
  obtain ⟨hvalid1, herrs⟩ := hValid
  have hDecom : c.decommissionedAt = none := by
    by_contra hne
    rw [if_pos hne] at herrs
    simp at herrs
  have hsv : sv = true := by
    have h2 := hvalid1
    simp only [Bool.and_eq_true] at h2
    exact h2.2
  subst hsv
  have hNe : canonicalUnsigned (revokeCredential env revMs c).toUnsignedCredential ≠
      canonicalUnsigned c.toUnsignedCredential := by
    have h0 : (revokeCredential env revMs c).toUnsignedCredential =
        { c.toUnsignedCredential with
            decommissionedAt := some (env.toISOString revMs) } := rfl
    rw [h0]
    exact canonicalUnsigned_decommission_ne c.toUnsignedCredential _ hDecom
  obtain ⟨b2, hs2⟩ := verifySignature_ok_of_ok env _ _ _ _ true hs
    (canonicalUnsigned (revokeCredential env revMs c).toUnsignedCredential)
    c.proof.proofValue issuer.publicKey
  have hb2 : b2 = false := by
    cases b2
    · rfl
    · exact absurd (hUnique _ _ hs2 hs) hColl
  subst hb2
  have hIss2 : env.getIssuerByDid (revokeCredential env revMs c).issuer.id = some issuer :=
    hIss
  have hver : verifyCredential env now2 (revokeCredential env revMs c) =
      { valid := false, errors :=
          ((if now2 > env.parseDateMs c.expirationDate
              then ["Credential has expired"] else []) ++
           ["Credential has been decommissioned"]) ++ ["Invalid signature"] } := by
    unfold verifyCredential
    have hs2x : verifySignature env
        (canonicalUnsigned (revokeCredential env revMs c).toUnsignedCredential)
        (revokeCredential env revMs c).proof.proofValue issuer.publicKey
        issuer.signatureAlgorithm = .ok false := hs2
    simp only [hIss2, hs2x]
    simp [revokeCredential]
  refine ⟨hNe, canonicalUnsigned_includes_null c.toUnsignedCredential hDecom, ?_, ?_, ?_⟩
  · rw [hver]
  · rw [hver]
    simp
  · rw [hver]
    simp

set_option maxRecDepth 400000 in
/-- C9 witness: the concrete mock-issued credential verifies cleanly;
its revoked copy fails verification with both the decommissioned error
and `Invalid signature`. -/
theorem claim_C9_revocation_changes_signed_bytes_witness :
    verifyCredential mockEnv mockCtx.nowMs mockIssuedCredential =
      { valid := true, errors := [] } ∧
    (verifyCredential mockEnv mockCtx.nowMs
        (revokeCredential mockEnv 1700000000999 mockIssuedCredential)).valid = false ∧
    "Credential has been decommissioned" ∈
      (verifyCredential mockEnv mockCtx.nowMs
        (revokeCredential mockEnv 1700000000999 mockIssuedCredential)).errors ∧
    "Invalid signature" ∈
      (verifyCredential mockEnv mockCtx.nowMs
        (revokeCredential mockEnv 1700000000999 mockIssuedCredential)).errors := by
  have hValid : verifyCredential mockEnv mockCtx.nowMs mockIssuedCredential =
      { valid := true, errors := [] } := by decide
  have h := claim_C9_revocation_changes_signed_bytes mockEnv mockCtx.nowMs mockCtx.nowMs
    1700000000999 mockIssuedCredential mockIssuer (by decide) hValid
    (fun d d' h1 h2 => mockEnv_sigUnique mockIssuedCredential.proof.proofValue
      mockIssuer.publicKey d d' h1 h2)
    (by decide)
  exact ⟨hValid, h.2.2.1, h.2.2.2.1, h.2.2.2.2⟩
